import Mathlib

/-!
A verification development for the `dns-syncer` repository.

The Rust sources are shallowly embedded: pure functions become Lean
functions, stateful code becomes explicit state passing, `Result<T>`
becomes `Except Error T`, and panics become `Option.none`.  External
HTTP effects (the IP-detection backends and the Cloudflare REST API)
are abstracted as explicit inputs: the response of a request is passed
in as an oracle function or as the list of records/zones that the
remote side would report for the query the code issues.

IP addresses are modelled as opaque numeric values: none of the
verified code inspects the internal structure of an address, it only
stores, copies and compares them.
-/

/-- IPv4 address (`std::net::Ipv4Addr`), modelled as an opaque value. -/
abbrev Ipv4Addr := Nat

/-- IPv6 address (`std::net::Ipv6Addr`), modelled as an opaque value. -/
abbrev Ipv6Addr := Nat

/-- `src/error.rs` `Error` (with the extra variants used by `record.rs`
and `provider/cloudflare2`: `Provider`, `NotImplemente`).  Payloads that
are not strings in Rust (`std::io::Error`) are modelled as strings. -/
inductive Error where
  | HttpError (msg : String)
  | ParseError (msg : String)
  | IoError (msg : String)
  | GlobalFetcherError (msg : String)
  | Provider (msg : String)
  | NotImplemente
deriving DecidableEq, Repr

----------------------------------------------------------------
-- src/record.rs
----------------------------------------------------------------

/-- `record.rs` `PublicIp`. -/
structure PublicIp where
  v4 : Option Ipv4Addr
  v6 : Option Ipv6Addr
deriving DecidableEq, Repr

/-- `record.rs` `RecordLabel`. -/
structure RecordLabel where
  key : String
  val : String
deriving DecidableEq, Repr

/-- `record.rs` `RecordType`. -/
inductive RecordType where
  | A
  | AAAA
  | CNAME
  | None
deriving DecidableEq, Repr

/-- `record.rs` `RecordType::as_str`. -/
def RecordType.as_str : RecordType → String
  | .A => "A"
  | .AAAA => "AAAA"
  | .CNAME => "CNAME"
  | .None => "None"

/-- `record.rs` `RecordContent`. -/
inductive RecordContent where
  | A (ip : Ipv4Addr)
  | AAAA (ip : Ipv6Addr)
  | CNAME (s : String)
  | Unassigned (ty : RecordType)
  | Unknown
deriving DecidableEq, Repr

/-- `record.rs` `FetcherRecord`. -/
structure FetcherRecord where
  value : RecordContent
  labels : List RecordLabel
deriving DecidableEq, Repr

/-- `record.rs` `FetcherRecordSet`. -/
structure FetcherRecordSet where
  contents : List FetcherRecord
deriving DecidableEq, Repr

instance : Inhabited FetcherRecordSet := ⟨⟨[]⟩⟩

/-- `record.rs` `FetcherRecordSet::is_empty`. -/
def FetcherRecordSet.is_empty (s : FetcherRecordSet) : Bool :=
  s.contents.isEmpty

/-- `record.rs` `impl From<FetcherRecordSet> for PublicIp`: a fold over
the contents; each `A` entry overwrites `v4`, each `AAAA` entry
overwrites `v6`, everything else is skipped. -/
def publicIpFromFetcherRecordSet (set : FetcherRecordSet) : PublicIp :=
  let st := set.contents.foldl
    (fun (st : Option Ipv4Addr × Option Ipv6Addr) content =>
      match content.value with
      | RecordContent.A ip => (some ip, st.2)
      | RecordContent.AAAA ip => (st.1, some ip)
      | _ => st)
    (none, none)
  PublicIp.mk st.1 st.2

/-- `record.rs` `TTL`. -/
inductive TTL where
  | Value (seconds : Nat)
  | Auto
deriving DecidableEq, Repr

/-- `record.rs` `RecordOp`. -/
inductive RecordOp where
  | Create
  | Purge
deriving DecidableEq, Repr

/-- `record.rs` `ProviderParam`. -/
structure ProviderParam where
  name : String
  value : String
deriving DecidableEq, Repr

/-- `record.rs` `ProviderRecord`. -/
structure ProviderRecord where
  name : String
  content : RecordContent
  comment : Option String
  op : RecordOp
  ttl : TTL
  params : List ProviderParam
deriving DecidableEq, Repr

/-- `record.rs` `ProviderRecord::assign_public_ip_if_unassigned`.
The Rust method mutates `self.content` and returns `Result<()>`; here it
returns the (possibly updated) record together with the result, the
record being returned unchanged on the error paths. -/
def ProviderRecord.assign_public_ip_if_unassigned (self : ProviderRecord)
    (v4 : Option Ipv4Addr) (v6 : Option Ipv6Addr) :
    ProviderRecord × Except Error Unit :=
  match self.content, v4, v6 with
  | RecordContent.Unassigned RecordType.A, some v4, _ =>
      ({ self with content := RecordContent.A v4 }, Except.ok ())
  | RecordContent.Unassigned RecordType.AAAA, _, some v6 =>
      ({ self with content := RecordContent.AAAA v6 }, Except.ok ())
  | RecordContent.Unassigned ty, _, _ =>
      (self, Except.error (Error.Provider
        ("content is declared as " ++ ty.as_str ++
          " but neither v4 nor v6 is provided")))
  | _, _, _ =>
      (self, Except.error (Error.Provider
        "content should be have a type like A or AAAA, but it is not. Maybe a bug?"))

----------------------------------------------------------------
-- src/record/entry.rs (used by the fetcher cache in fetcher/global.rs)
----------------------------------------------------------------

/-- `record/entry.rs` `RecordTTL`. -/
inductive RecordTTL where
  | Auto
  | Value (v : Nat)
deriving DecidableEq, Repr

/-- `record/entry.rs` `RecordA`. -/
structure RecordA where
  name : String
  value : Ipv4Addr
  ttl : RecordTTL
deriving DecidableEq, Repr

/-- `record/entry.rs` `RecordAAAA`. -/
structure RecordAAAA where
  name : String
  value : Ipv6Addr
  ttl : RecordTTL
deriving DecidableEq, Repr

/-- `record/entry.rs` `RecordCNAME`. -/
structure RecordCNAME where
  name : String
  value : String
  ttl : RecordTTL
deriving DecidableEq, Repr

/-- `record/entry.rs` `RecordEntry`. -/
inductive RecordEntry where
  | A (r : RecordA)
  | AAAA (r : RecordAAAA)
  | CNAME (r : RecordCNAME)
deriving DecidableEq, Repr

/-- `record/entry.rs` `RecordEntrySet`. -/
structure RecordEntrySet where
  records : List RecordEntry
deriving DecidableEq, Repr

/-- `record/entry.rs` `RecordEntrySet::is_empty` (via the underlying
vector, as used by `GlobalFetcher::is_fresh`). -/
def RecordEntrySet.is_empty (s : RecordEntrySet) : Bool :=
  s.records.isEmpty

----------------------------------------------------------------
-- src/fetcher/http_fetcher.rs
----------------------------------------------------------------

/-- `types` `Param`, the free-form name/value pair handed to
`HttpFetcher::new_with_args`. -/
structure Param where
  name : String
  value : String
deriving DecidableEq, Repr

/-- `http_fetcher.rs` `FetcherBackend`. -/
inductive FetcherBackend where
  | Cloudflare
  | Ipw
deriving DecidableEq, Repr

/-- `http_fetcher.rs` `HttpFetcher`.  `Instant` and `Duration` are
modelled as natural numbers on one abstract clock (seconds); the
elapse of time between two instants is truncated subtraction, which
is total and non-negative exactly as `Instant::elapsed` is. -/
structure HttpFetcher where
  backends : List FetcherBackend
  last_fetch_time : Nat
  cache_alive_time : Nat
  cache : Option FetcherRecordSet
deriving DecidableEq, Repr

/-- `HttpFetcher::new`; `now` is the construction instant
(`Instant::now()`). -/
def HttpFetcher.new (now : Nat) : HttpFetcher :=
  { backends := [FetcherBackend.Cloudflare, FetcherBackend.Ipw]
    cache_alive_time := 30
    cache := none
    last_fetch_time := now }

/-- Rust `str::split(sep)` collected into a vector, written directly
over the character list: an empty string yields `[""]`, and every
occurrence of the separator starts a new piece. -/
def rust_split_aux (sep : Char) : List Char → List Char → List String
  | [], acc => [String.mk acc.reverse]
  | c :: rest, acc =>
    if c = sep then
      String.mk acc.reverse :: rust_split_aux sep rest []
    else
      rust_split_aux sep rest (c :: acc)

/-- Rust `str::split(sep).collect::<Vec<_>>()`. -/
def rust_split (s : String) (sep : Char) : List String :=
  rust_split_aux sep s.toList []

/-- Rust `str::parse::<u64>()`: an optional leading `+`, then one or
more decimal digits, rejecting values that overflow 64 bits. -/
def parse_u64 (s : String) : Option Nat :=
  let t := if s.startsWith "+" then s.drop 1 else s
  if t.isEmpty then none
  else if t.all Char.isDigit then
    if t.toNat! < 2 ^ 64 then some t.toNat! else none
  else none

/-- The match arm inside `HttpFetcher::backends_from_types`: the panic
on an unknown backend type is modelled as `none`. -/
def backend_from_type : String → Option FetcherBackend
  | "cloudflare" => some FetcherBackend.Cloudflare
  | "ipw" => some FetcherBackend.Ipw
  | _ => none

/-- The `.iter().map(..).collect()` of
`HttpFetcher::backends_from_types`: mapping `backend_from_type` over
the list, a panic (`none`) anywhere aborting the whole collection. -/
def backends_from_types_map : List String → Option (List FetcherBackend)
  | [] => some []
  | t :: rest =>
    match backend_from_type t with
    | none => none
    | some b =>
      match backends_from_types_map rest with
      | none => none
      | some bs => some (b :: bs)

/-- `HttpFetcher::backends_from_types`.  An empty result falls back to
the default backends. -/
def HttpFetcher.backends_from_types (backend_types : List String) :
    Option (List FetcherBackend) :=
  match backends_from_types_map backend_types with
  | none => none
  | some ret =>
    if ret.isEmpty then
      some [FetcherBackend.Cloudflare, FetcherBackend.Ipw]
    else
      some ret

/-- The argument loop of `HttpFetcher::new_with_args`: the Rust code
iterates `args.iter().rev()`, overwriting `enabled_backends` on every
`"enabled"` parameter and `cache_alive_time` on every
`"cache_alive_time"` parameter; a `"cache_alive_time"` value that does
not parse as `u64` panics (`unwrap`), modelled as `none`.  The caller
passes the already reversed list. -/
def HttpFetcher.args_loop :
    List Param → List String × Nat → Option (List String × Nat)
  | [], st => some st
  | param :: rest, (enabled_backends, cache_alive_time) =>
    if param.name = "enabled" then
      HttpFetcher.args_loop rest (rust_split param.value ',', cache_alive_time)
    else if param.name = "cache_alive_time" then
      match parse_u64 param.value with
      | some v => HttpFetcher.args_loop rest (enabled_backends, v)
      | none => none
    else
      HttpFetcher.args_loop rest (enabled_backends, cache_alive_time)

/-- `HttpFetcher::new_with_args`; `now` is the construction instant.
A panic anywhere in the constructor is modelled as `none`. -/
def HttpFetcher.new_with_args (now : Nat) (args : List Param) :
    Option HttpFetcher :=
  if args.isEmpty then some (HttpFetcher.new now)
  else
    match HttpFetcher.args_loop args.reverse ([], 0) with
    | none => none
    | some (enabled_backends, cache_alive_time) =>
      match HttpFetcher.backends_from_types enabled_backends with
      | none => none
      | some backends =>
        some { backends
               cache_alive_time
               cache := none
               last_fetch_time := now }

/-- The two address families a backend is queried for. -/
inductive IpFamily where
  | v4
  | v6
deriving DecidableEq, Repr

/-- The outcome of one backend HTTP request (transport, body parsing
and IP-literal parsing together): what `CloudflareFetcher::fetch_v4`,
`CloudflareFetcher::fetch_v6`, `IpwFetcher::fetch_v4` and
`IpwFetcher::fetch_v6` return.  These hit the network, so they enter
the embedding as an oracle. -/
abbrev FetchOracle := FetcherBackend → IpFamily → Except Error FetcherRecord

/-- The loop body of `HttpFetcher::do_fetch_from_backends`: for each
backend, fetch v4 then v6, pushing the results in order; any error
aborts the whole loop via `?`. -/
def HttpFetcher.fetch_backends_loop (http : FetchOracle) :
    List FetcherBackend → FetcherRecordSet → Except Error FetcherRecordSet
  | [], ret => Except.ok ret
  | backend :: rest, ret =>
    match http backend IpFamily.v4 with
    | Except.error e => Except.error e
    | Except.ok r4 =>
      match http backend IpFamily.v6 with
      | Except.error e => Except.error e
      | Except.ok r6 =>
        HttpFetcher.fetch_backends_loop http rest
          ⟨ret.contents ++ [r4, r6]⟩

/-- `HttpFetcher::do_fetch_from_backends`. -/
def HttpFetcher.do_fetch_from_backends (http : FetchOracle)
    (self : HttpFetcher) : Except Error FetcherRecordSet :=
  HttpFetcher.fetch_backends_loop http self.backends ⟨[]⟩

/-- `HttpFetcher::do_fetch`; `now` is the instant of the call, so the
Rust `self.last_fetch_time.elapsed()` is `now - self.last_fetch_time`.
The returned pair is the updated `self` (unchanged when the live fetch
fails or the cache is used) together with the result. -/
def HttpFetcher.do_fetch (http : FetchOracle) (now : Nat)
    (self : HttpFetcher) : HttpFetcher × Except Error FetcherRecordSet :=
  if self.cache.isNone || (now - self.last_fetch_time > self.cache_alive_time) then
    match HttpFetcher.do_fetch_from_backends http self with
    | Except.error e => (self, Except.error e)
    | Except.ok records =>
      ({ self with cache := some records, last_fetch_time := now },
        Except.ok records)
  else
    (self, Except.ok self.cache.get!)

/-- `http_fetcher.rs` `IpwFetcher::parse_content`: the body is returned
as the IP literal, tagged with the `backend=ipw` label. -/
def IpwFetcher.parse_content (content : String) :
    Except Error (String × List RecordLabel) :=
  Except.ok (content, [RecordLabel.mk "backend" "ipw"])

----------------------------------------------------------------
-- src/fetcher/global.rs
----------------------------------------------------------------

/-- `global.rs` `GlobalFetcher` (without the boxed inner fetcher, whose
`fetch()` result enters `fetch` below as an explicit input). -/
structure GlobalFetcher where
  lifetime : Nat
  cache_result : RecordEntrySet
  last_fetch_time : Nat
deriving DecidableEq, Repr

/-- `GlobalFetcher::is_fresh`; `now` is the instant of the call. -/
def GlobalFetcher.is_fresh (self : GlobalFetcher) (now : Nat) : Bool :=
  decide (now - self.last_fetch_time < self.lifetime) &&
    !(RecordEntrySet.is_empty self.cache_result)

/-- `global.rs` `fetch()` acting on an already initialized global
fetcher; `live` is what the inner fetcher's `fetch()` would return.
The pair is the updated state (unchanged on cache hit or on error)
together with the result. -/
def GlobalFetcher.fetch (self : GlobalFetcher) (now : Nat)
    (live : Except Error RecordEntrySet) :
    GlobalFetcher × Except Error RecordEntrySet :=
  if GlobalFetcher.is_fresh self now then
    (self, Except.ok self.cache_result)
  else
    match live with
    | Except.error e => (self, Except.error e)
    | Except.ok records =>
      ({ self with cache_result := records, last_fetch_time := now },
        Except.ok records)

----------------------------------------------------------------
-- src/provider/cloudflare2/restful_cli.rs
----------------------------------------------------------------

namespace Cloudflare2

/-- `cloudflare2` `CfRecordOp` (declared in `cloudflare2/cloudflare.rs`,
used by `restful_cli.rs`). -/
inductive CfRecordOp where
  | Create
  | Overwrite
deriving DecidableEq, Repr

/-- `cloudflare2` `CfRecord`, with the fields `restful_cli.rs`
constructs and reads (`id`, `name`, `type`, `content`, `comment`, `op`,
`proxied`, `ttl`); the Rust field `r#type` is `rtype` here. -/
structure CfRecord where
  id : Option String
  name : String
  rtype : String
  content : Option String
  comment : String
  op : CfRecordOp
  proxied : Bool
  ttl : Option Nat
deriving DecidableEq, Repr

/-- `cloudflare2` `CfZone`. -/
structure CfZone where
  id : String
  name : String
deriving DecidableEq, Repr

/-- `restful_cli.rs` `BatchRecordDelete`. -/
structure BatchRecordDelete where
  id : String
deriving DecidableEq, Repr

/-- `restful_cli.rs` `BatchRecord`. -/
structure BatchRecord where
  deletes : Option (List BatchRecordDelete)
  patches : Option (List CfRecord)
  posts : Option (List CfRecord)
deriving DecidableEq, Repr

/-- `CfClient::zone_list`: the HTTP GET
`/zones?name=<name>` is external; `zones` is the name-filtered zone
list the provider reports for it.  Zero matches yield `Ok(None)`, one
match yields the zone, two or more are an error.  `Cli::zone_list` in
`provider/cloudflare/cloudflare.rs` is the same logic verbatim. -/
def zone_list (name : String) (zones : List CfZone) :
    Except Error (Option CfZone) :=
  match zones with
  | [] => Except.ok none
  | [z] => Except.ok (some z)
  | _ => Except.error (Error.ParseError ("multiple zones found: " ++ name))

/-- `CfClient::record_list`: the code issues a GET on
`/zones/<id>/dns_records?name=<name>&type=<rtype>`; the provider
answers with exactly the remote records of the zone whose name equals
`name` and whose type equals `rtype`, which is modelled by filtering
the remote record list `remote`.  Zero matches yield `Ok(None)`, one
match yields the record, two or more are an error. -/
def record_list (remote : List CfRecord) (name : String) (rtype : String) :
    Except Error (Option CfRecord) :=
  let records := remote.filter (fun r => r.name == name && r.rtype == rtype)
  match records with
  | [] => Except.ok none
  | [r] => Except.ok (some r)
  | _ => Except.error (Error.ParseError ("multiple records found: " ++ name))

/-- `CfClient::record_op_force_overwrite`, up to the point where the
batch is POSTed: `remote` is the zone's remote record list, and the
returned value is the `BatchRecord` submitted to
`/zones/<id>/dns_records/batch` (the POST itself and the provider's
response are external).  The Rust `r.id.unwrap()` is `Option.get!`
(remote records carry their id). -/
def record_op_force_overwrite (remote : List CfRecord) (record : CfRecord) :
    Except Error BatchRecord :=
  match record_list remote record.name record.rtype with
  | Except.error e => Except.error e
  | Except.ok rcd =>
    let deletes := rcd.map (fun r => [BatchRecordDelete.mk r.id.get!])
    Except.ok { deletes := deletes, patches := none, posts := some [record] }

end Cloudflare2

----------------------------------------------------------------
-- src/provider/cloudflare/{cloudflare.rs, serializer.rs}
----------------------------------------------------------------

namespace Cloudflare

/-- `record/record.rs` `RecordLabel::tuple_ref`. -/
def labelTuple (l : RecordLabel) : String × String := (l.key, l.val)

/-- `record/record.rs` `RecordMeta`. -/
structure RecordMeta where
  comment : Option String
  labels : List RecordLabel
deriving DecidableEq, Repr

/-- `record/record.rs` `Record`: a `RecordEntry` with meta info. -/
structure Record where
  entry : RecordEntry
  meta : RecordMeta
deriving DecidableEq, Repr

/-- `cloudflare/cloudflare.rs` `CfRecord`. -/
structure CfRecord where
  entry : RecordEntry
  comment : Option String
  proxied : Bool
deriving DecidableEq, Repr

/-- `cloudflare/cloudflare.rs` `impl From<Record> for CfRecord`:
`proxied` holds exactly when some label is the pair
`("proxied", "true")`. -/
def CfRecord.from_record (record : Record) : CfRecord :=
  { entry := record.entry
    comment := record.meta.comment
    proxied := record.meta.labels.any
      (fun l => labelTuple l == ("proxied", "true")) }

/-- `cloudflare/serializer.rs` `impl Serialize for RecordTTL`: the
`ttl` number written into the serialized record body (`Auto` is the
provider sentinel `1`). -/
def serialize_RecordTTL : RecordTTL → Nat
  | RecordTTL.Auto => 1
  | RecordTTL.Value v => v

end Cloudflare

----------------------------------------------------------------
-- cmd/main.rs (topology builder) and cmd/config.rs
----------------------------------------------------------------

/-- `cmd/config.rs` `CfgParam`. -/
structure CfgParam where
  name : String
  value : String
deriving DecidableEq, Repr

/-- `cmd/config.rs` `CfgParamList`. -/
structure CfgParamList where
  list : List CfgParam
deriving DecidableEq, Repr

/-- `cmd/config.rs` `CfgRecord`. -/
structure CfgRecord where
  name : String
  content : RecordContent
  comment : Option String
  op : RecordOp
  ttl : TTL
deriving DecidableEq, Repr

/-- `cmd/config.rs` `CfgRecord::into_provider_record`. -/
def CfgRecord.into_provider_record (self : CfgRecord)
    (params : CfgParamList) : ProviderRecord :=
  { name := self.name
    content := self.content
    comment := self.comment
    op := self.op
    ttl := self.ttl
    params := params.list.map (fun p => ProviderParam.mk p.name p.value) }

/-- `cmd/config.rs` `CfgRecordFetcher`. -/
structure CfgRecordFetcher where
  name : String
deriving DecidableEq, Repr

/-- `cmd/config.rs` `CfgRecordProvider`. -/
structure CfgRecordProvider where
  name : String
  zones : List String
  params : CfgParamList
deriving DecidableEq, Repr

/-- `cmd/config.rs` `CfgRecordItem`. -/
structure CfgRecordItem where
  record : CfgRecord
  providers : List CfgRecordProvider
  fetchers : List CfgRecordFetcher
deriving DecidableEq, Repr

/-- The per-zone record list (`ZoneRecords`); the struct lives with
`BackendRecords` in the library but `cmd/main.rs` only ever touches its
`records` vector. -/
structure ZoneRecords where
  records : List ProviderRecord

/-- `BackendRecords`: the zone-name → records map.  `cmd/main.rs`
accesses it only through `zones.entry(zone).or_insert(Default)`, so the
`HashMap` is modelled as a total function defaulting to the empty
`ZoneRecords` — lookups of keys never inserted read the default, just
as `or_insert(Default::default())` provides it. -/
structure BackendRecords where
  zones : String → ZoneRecords

/-- `cmd/main.rs` `ProviderBackend`. -/
structure ProviderBackend where
  record : BackendRecords
  fetchers : List String

/-- `Default::default()` for `ZoneRecords`/`BackendRecords`/
`ProviderBackend`: all collections empty. -/
instance : Inhabited ZoneRecords := ⟨⟨[]⟩⟩

instance : Inhabited BackendRecords := ⟨⟨fun _ => ⟨[]⟩⟩⟩

instance : Inhabited ProviderBackend := ⟨⟨default, []⟩⟩

/-- Point update of a string-keyed map modelled as a total function
(the `HashMap` insert/mutate-through-entry). -/
def mapUpdate {α : Type} (m : String → α) (k : String) (v : α) :
    String → α :=
  fun k2 => if k2 = k then v else m k2

/-- `cmd/main.rs` `add_zone_record`: push one `ProviderRecord`,
projected from the configured record and the attachment params, onto
the zone's record list. -/
def add_zone_record (backend_records : BackendRecords) (zone : String)
    (record : CfgRecord) (params : CfgParamList) : BackendRecords :=
  let zone_records := backend_records.zones zone
  { zones := mapUpdate backend_records.zones zone
      ⟨zone_records.records ++ [record.into_provider_record params]⟩ }

/-- `cmd/main.rs` `process_provider`: fetch (or default-insert) the
provider's `ProviderBackend` and append one record per zone of the
attachment. -/
def process_provider (records_map : String → ProviderBackend)
    (record : CfgRecord) (provider : CfgRecordProvider) :
    String → ProviderBackend :=
  let backend := records_map provider.name
  let record2 := provider.zones.foldl
    (fun br zone => add_zone_record br zone record provider.params)
    backend.record
  mapUpdate records_map provider.name { backend with record := record2 }

/-- `cmd/main.rs` `process_record_item`: one configured record, every
provider attachment. -/
def process_record_item (records_map : String → ProviderBackend)
    (item : CfgRecordItem) : String → ProviderBackend :=
  item.providers.foldl
    (fun m provider => process_provider m item.record provider)
    records_map

/-- `cmd/main.rs` `to_provider_backends` (the `Result` it returns is
always `Ok`, so the embedding returns the map directly). -/
def to_provider_backends (cfg_records : List CfgRecordItem) :
    String → ProviderBackend :=
  cfg_records.foldl process_record_item (fun _ => default)

/-- The pending records the topology is specified to hold at
`(provider, zone)`: one per `(record, attachment, zone)` triple of the
input whose attachment names the provider and contains the zone, in
input order. -/
def topology_spec (cfg_records : List CfgRecordItem) (p : String)
    (z : String) : List ProviderRecord :=
  (cfg_records.map (fun item =>
    (item.providers.map (fun provider =>
      if provider.name = p then
        provider.zones.filterMap (fun zone =>
          if zone = z then some (item.record.into_provider_record provider.params)
          else none)
      else [])).flatten)).flatten

----------------------------------------------------------------
-- Specification-side descriptions used by refinement claims
----------------------------------------------------------------

/-- Spec-side description for the PublicIp merge: the value of the
*last* `A` entry of the list (`none` when there is no `A` entry). -/
def spec_lastA : List FetcherRecord → Option Ipv4Addr
  | [] => none
  | c :: rest =>
    match spec_lastA rest with
    | some ip => some ip
    | none =>
      match c.value with
      | RecordContent.A ip => some ip
      | _ => none

/-- Spec-side description for the PublicIp merge: the value of the
*last* `AAAA` entry of the list (`none` when there is no `AAAA`
entry). -/
def spec_lastAAAA : List FetcherRecord → Option Ipv6Addr
  | [] => none
  | c :: rest =>
    match spec_lastAAAA rest with
    | some ip => some ip
    | none =>
      match c.value with
      | RecordContent.AAAA ip => some ip
      | _ => none

/-- The fold of `impl From<FetcherRecordSet> for PublicIp`, started
from an arbitrary accumulator, lands on the last `A`/`AAAA` values
when they exist and on the accumulator otherwise. -/
theorem publicIp_fold_eq_last (l : List FetcherRecord) :
    ∀ v4 v6,
      l.foldl
        (fun (st : Option Ipv4Addr × Option Ipv6Addr) content =>
          match content.value with
          | RecordContent.A ip => (some ip, st.2)
          | RecordContent.AAAA ip => (st.1, some ip)
          | _ => st)
        (v4, v6) =
      ((spec_lastA l).elim v4 some, (spec_lastAAAA l).elim v6 some) := by
  induction l with
  | nil => intro v4 v6; simp [spec_lastA, spec_lastAAAA]
  | cons c rest ih =>
    intro v4 v6
    rw [List.foldl_cons]
    rcases hc : c.value with ip | ip | s | ty | _ <;>
      simp only [hc] <;>
      rw [ih] <;>
      rcases h4 : spec_lastA rest with _ | ip4 <;>
      rcases h6 : spec_lastAAAA rest with _ | ip6 <;>
      simp [spec_lastA, spec_lastAAAA, h4, h6, hc]

----------------------------------------------------------------
-- Claim theorems
----------------------------------------------------------------

/-- C6: for every `FetcherRecordSet`, the derived `PublicIp` has `v4`
equal to the value of the last `A` entry of the set (`none` when there
is no `A` entry) and `v6` equal to the value of the last `AAAA` entry
(`none` when there is no `AAAA` entry); entries of any other kind do
not affect the result. -/
theorem publicIp_takes_last_A_and_last_AAAA (set : FetcherRecordSet) :
    (publicIpFromFetcherRecordSet set).v4 = spec_lastA set.contents ∧
      (publicIpFromFetcherRecordSet set).v6 = spec_lastAAAA set.contents := by
  unfold publicIpFromFetcherRecordSet
  rw [publicIp_fold_eq_last]
  constructor <;> rcases h : spec_lastA set.contents <;>
    rcases h6 : spec_lastAAAA set.contents <;> simp

/-- C2: a record whose content is `Unassigned(A)` is filled to `A(v4)`
with `Ok` exactly when a v4 address is present, and errors leaving the
content unchanged when v4 is absent (whatever v6 is); symmetrically an
`Unassigned(AAAA)` record is filled from v6 and errors when v6 is
absent. -/
theorem assign_public_ip_unassigned_fill (r : ProviderRecord)
    (a : Ipv4Addr) (b : Ipv6Addr) (v4 : Option Ipv4Addr)
    (v6 : Option Ipv6Addr) :
    (r.content = RecordContent.Unassigned RecordType.A →
      r.assign_public_ip_if_unassigned (some a) v6 =
          ({ r with content := RecordContent.A a }, Except.ok ()) ∧
        ∃ e, r.assign_public_ip_if_unassigned none v6 =
          (r, Except.error e)) ∧
    (r.content = RecordContent.Unassigned RecordType.AAAA →
      r.assign_public_ip_if_unassigned v4 (some b) =
          ({ r with content := RecordContent.AAAA b }, Except.ok ()) ∧
        ∃ e, r.assign_public_ip_if_unassigned v4 none =
          (r, Except.error e)) := by
  constructor <;> intro h
  · refine ⟨?_, ?_⟩
    · simp [ProviderRecord.assign_public_ip_if_unassigned, h]
    · refine ⟨Error.Provider ("content is declared as " ++
          RecordType.A.as_str ++ " but neither v4 nor v6 is provided"), ?_⟩
      simp [ProviderRecord.assign_public_ip_if_unassigned, h]
  · refine ⟨?_, ?_⟩
    · rcases v4 with _ | a4 <;>
        simp [ProviderRecord.assign_public_ip_if_unassigned, h]
    · refine ⟨Error.Provider ("content is declared as " ++
          RecordType.AAAA.as_str ++ " but neither v4 nor v6 is provided"), ?_⟩
      rcases v4 with _ | a4 <;>
        simp [ProviderRecord.assign_public_ip_if_unassigned, h]

/-- Closed instance of `assign_public_ip_unassigned_fill`: a concrete
type-A unassigned record succeeds with `v4 = some 5` (content becomes
`A 5`) and fails unchanged with `v4 = none` even though `v6` is
present. -/
theorem assign_public_ip_unassigned_fill_witness :
    (ProviderRecord.mk "home" (RecordContent.Unassigned RecordType.A)
          none RecordOp.Create TTL.Auto []).assign_public_ip_if_unassigned
        (some 5) (some 7) =
      (ProviderRecord.mk "home" (RecordContent.A 5) none RecordOp.Create
        TTL.Auto [], Except.ok ()) ∧
    ∃ e, (ProviderRecord.mk "home" (RecordContent.Unassigned RecordType.A)
          none RecordOp.Create TTL.Auto []).assign_public_ip_if_unassigned
        none (some 7) =
      (ProviderRecord.mk "home" (RecordContent.Unassigned RecordType.A)
        none RecordOp.Create TTL.Auto [], Except.error e) :=
  (assign_public_ip_unassigned_fill
    (ProviderRecord.mk "home" (RecordContent.Unassigned RecordType.A)
      none RecordOp.Create TTL.Auto [])
    5 7 none (some 7)).1 rfl

/-- C5: `zone_list` returns `Ok(None)` on an empty name-filtered zone
list, `Ok(Some zone)` on a singleton, and an error on two or more
matches, so an ambiguous zone name is never silently resolved. -/
theorem zone_list_matches_trichotomy (name : String)
    (zones : List Cloudflare2.CfZone) :
    (zones = [] → Cloudflare2.zone_list name zones = Except.ok none) ∧
    (∀ z, zones = [z] →
      Cloudflare2.zone_list name zones = Except.ok (some z)) ∧
    (2 ≤ zones.length →
      ∃ e, Cloudflare2.zone_list name zones = Except.error e) := by
  refine ⟨fun h => by rw [h]; rfl, fun z h => by rw [h]; rfl, fun h => ?_⟩
  rcases zones with _ | ⟨z1, _ | ⟨z2, rest⟩⟩
  · simp at h
  · simp at h
  · exact ⟨_, rfl⟩

/-- Closed instance of `zone_list_matches_trichotomy` at concrete zone
lists of length 0, 1 and 2. -/
theorem zone_list_matches_trichotomy_witness :
    Cloudflare2.zone_list "example.com" [] = Except.ok none ∧
    Cloudflare2.zone_list "example.com" [Cloudflare2.CfZone.mk "z1" "example.com"] =
      Except.ok (some (Cloudflare2.CfZone.mk "z1" "example.com")) ∧
    ∃ e, Cloudflare2.zone_list "example.com"
      [Cloudflare2.CfZone.mk "z1" "example.com",
        Cloudflare2.CfZone.mk "z2" "example.com"] = Except.error e :=
  ⟨(zone_list_matches_trichotomy "example.com" []).1 rfl,
    (zone_list_matches_trichotomy "example.com"
      [Cloudflare2.CfZone.mk "z1" "example.com"]).2.1 _ rfl,
    (zone_list_matches_trichotomy "example.com"
      [Cloudflare2.CfZone.mk "z1" "example.com",
        Cloudflare2.CfZone.mk "z2" "example.com"]).2.2 (by decide)⟩

/-- C9 counterexample: on the body `" 1.2.3.4\n"` the ipw parse
function returns the body exactly as received — which is not the
trimmed body `"1.2.3.4"` — so the parse result is *not* the trimmed
body as the claim states. -/
theorem ipw_parse_content_counterexample :
    IpwFetcher.parse_content " 1.2.3.4\n" =
      Except.ok (" 1.2.3.4\n", [RecordLabel.mk "backend" "ipw"]) ∧
    (" 1.2.3.4\n" : String) ≠ "1.2.3.4" :=
  ⟨rfl, by decide⟩

/-- C9 amended: for every HTTP response body, the ipw backend's parse
function returns the entire body *unchanged* (no trimming) as the IP
literal, together with a single label naming the ipw backend as
origin. -/
theorem ipw_parse_content_returns_whole_body (content : String) :
    IpwFetcher.parse_content content =
      Except.ok (content, [RecordLabel.mk "backend" "ipw"]) :=
  rfl

/-- C8: the serialized record body writes `ttl = 1` for `Auto` and
`ttl = v` for `Value v`, and its `proxied` field is `true` exactly when
the record carries a label with name `"proxied"` and value `"true"`. -/
theorem cf_record_body_ttl_and_proxied :
    Cloudflare.serialize_RecordTTL RecordTTL.Auto = 1 ∧
    (∀ v, Cloudflare.serialize_RecordTTL (RecordTTL.Value v) = v) ∧
    (∀ record : Cloudflare.Record,
      (Cloudflare.CfRecord.from_record record).proxied = true ↔
        ∃ l ∈ record.meta.labels, l.key = "proxied" ∧ l.val = "true") := by
  refine ⟨rfl, fun v => rfl, fun record => ?_⟩
  simp only [Cloudflare.CfRecord.from_record, Cloudflare.labelTuple,
    List.any_eq_true, beq_iff_eq, Prod.mk.injEq]

/-- Any request in the backend loop failing makes the whole loop fail
with one of the failing requests' errors, whatever has been
accumulated so far. -/
theorem fetch_backends_loop_error (http : FetchOracle)
    (l : List FetcherBackend)
    (h : ∃ b ∈ l, ∃ fam, ∃ e0, http b fam = Except.error e0) :
    ∀ acc, ∃ e, HttpFetcher.fetch_backends_loop http l acc = Except.error e ∧
      ∃ b ∈ l, ∃ fam, http b fam = Except.error e := by
  induction l with
  | nil => simp at h
  | cons b rest ih =>
    intro acc
    rcases hb4 : http b IpFamily.v4 with e4 | r4
    · exact ⟨e4, by simp [HttpFetcher.fetch_backends_loop, hb4],
        b, List.mem_cons_self b rest, IpFamily.v4, hb4⟩
    · rcases hb6 : http b IpFamily.v6 with e6 | r6
      · exact ⟨e6, by simp [HttpFetcher.fetch_backends_loop, hb4, hb6],
          b, List.mem_cons_self b rest, IpFamily.v6, hb6⟩
      · have hrest : ∃ b2 ∈ rest, ∃ fam, ∃ e0, http b2 fam = Except.error e0 := by
          rcases h with ⟨b2, hmem, fam, e0, herr⟩
          rcases List.mem_cons.mp hmem with rfl | hmem2
          · rcases fam with _ | _
            · rw [hb4] at herr; cases herr
            · rw [hb6] at herr; cases herr
          · exact ⟨b2, hmem2, fam, e0, herr⟩
        rcases ih hrest ⟨acc.contents ++ [r4, r6]⟩ with ⟨e, hloop, b2, hmem2, fam, herr⟩
        refine ⟨e, ?_, b2, List.mem_cons_of_mem b hmem2, fam, herr⟩
        simp [HttpFetcher.fetch_backends_loop, hb4, hb6, hloop]

/-- C4: if any single backend request fails during a multi-backend
fetch, the fetch returns one of the failing requests' errors (no
partial result, no fallback to another backend), and `do_fetch` leaves
the fetcher state — cached result and last-fetch timestamp — exactly
as it was; when the state is stale enough that a live fetch is
attempted, `do_fetch` propagates exactly that error. -/
theorem backend_failure_aborts_fetch (http : FetchOracle)
    (s : HttpFetcher) (now : Nat)
    (h : ∃ b ∈ s.backends, ∃ fam, ∃ e0, http b fam = Except.error e0) :
    ∃ e, HttpFetcher.do_fetch_from_backends http s = Except.error e ∧
      (∃ b ∈ s.backends, ∃ fam, http b fam = Except.error e) ∧
      (HttpFetcher.do_fetch http now s).1 = s ∧
      ((s.cache.isNone || decide
          (now - s.last_fetch_time > s.cache_alive_time)) = true →
        HttpFetcher.do_fetch http now s = (s, Except.error e)) := by
  rcases fetch_backends_loop_error http s.backends h ⟨[]⟩ with
    ⟨e, hloop, b, hmem, fam, herr⟩
  have hfetch : HttpFetcher.do_fetch_from_backends http s = Except.error e := hloop
  refine ⟨e, hfetch, ⟨b, hmem, fam, herr⟩, ?_, ?_⟩
  · unfold HttpFetcher.do_fetch
    split
    · rw [hfetch]
    · rfl
  · intro hcond
    unfold HttpFetcher.do_fetch
    rw [if_pos (by simpa using hcond)]
    rw [hfetch]

/-- Closed instance of `backend_failure_aborts_fetch`: with a single
always-failing backend and a cold cache, `do_fetch` returns the error
and leaves the state untouched. -/
theorem backend_failure_aborts_fetch_witness :
    ∃ e, HttpFetcher.do_fetch
        (fun _ _ => Except.error (Error.HttpError "connection refused")) 5
        (HttpFetcher.mk [FetcherBackend.Cloudflare] 0 30 none) =
      (HttpFetcher.mk [FetcherBackend.Cloudflare] 0 30 none,
        Except.error e) := by
  rcases backend_failure_aborts_fetch
      (fun _ _ => Except.error (Error.HttpError "connection refused"))
      (HttpFetcher.mk [FetcherBackend.Cloudflare] 0 30 none) 5
      ⟨FetcherBackend.Cloudflare, by decide, IpFamily.v4,
        Error.HttpError "connection refused", rfl⟩ with
    ⟨e, _, _, _, hdo⟩
  exact ⟨e, hdo (by decide)⟩

/-- Mapping the backend types fails (the Rust code panics) as soon as
one entry is neither `"cloudflare"` nor `"ipw"`. -/
theorem backends_from_types_map_none_of_unknown (l : List String)
    (b : String) (hmem : b ∈ l) (hb1 : b ≠ "cloudflare") (hb2 : b ≠ "ipw") :
    backends_from_types_map l = none := by
  induction l with
  | nil => cases hmem
  | cons t rest ih =>
    rcases List.mem_cons.mp hmem with rfl | hmem2
    · have ht : backend_from_type b = none := by
        unfold backend_from_type
        split
        · simp_all
        · simp_all
        · rfl
      simp [backends_from_types_map, ht]
    · unfold backends_from_types_map
      rw [ih hmem2]
      split <;> rfl

/-- C10: `HttpFetcher::new_with_args` is not total on its public input:
whenever the effective `"enabled"` parameter splits into a list that
contains a backend name other than `"cloudflare"` or `"ipw"` (for a
non-empty argument list), the constructor panics — modelled as `none` —
instead of returning an error value. -/
theorem new_with_args_panics_on_unknown_backend (now : Nat)
    (args : List Param) (h1 : args ≠ [])
    (h2 : ∀ st, HttpFetcher.args_loop args.reverse ([], 0) = some st →
      ∃ b ∈ st.1, b ≠ "cloudflare" ∧ b ≠ "ipw") :
    HttpFetcher.new_with_args now args = none := by
  unfold HttpFetcher.new_with_args
  rw [if_neg (by simpa using h1)]
  rcases hloop : HttpFetcher.args_loop args.reverse ([], 0) with _ | ⟨en, cat⟩
  · rfl
  · rcases h2 (en, cat) hloop with ⟨b, hmem, hb1, hb2⟩
    have : HttpFetcher.backends_from_types en = none := by
      unfold HttpFetcher.backends_from_types
      rw [backends_from_types_map_none_of_unknown en b hmem hb1 hb2]
    simp [this]

/-- Closed instance of `new_with_args_panics_on_unknown_backend`: the
single parameter `enabled=""` splits into `[""]`, whose empty backend
name is unknown, so the constructor panics. -/
theorem new_with_args_panics_on_unknown_backend_witness :
    HttpFetcher.new_with_args 0 [Param.mk "enabled" ""] = none := by
  apply new_with_args_panics_on_unknown_backend 0 [Param.mk "enabled" ""]
    (by decide)
  intro st hst
  have hcomp : HttpFetcher.args_loop
      (List.reverse [Param.mk "enabled" ""]) ([], 0) = some ([""], 0) := by
    decide
  rw [hcomp] at hst
  cases hst
  exact ⟨"", by decide, by decide, by decide⟩

/-- C3 counterexample: an `HttpFetcher` with lifetime 30, cache filled
at time 0 and non-empty, queried at time 30 — the elapsed time equals
the lifetime exactly.  The backend oracle always fails, yet `do_fetch`
returns the cached result with the state untouched, so no fresh
request is issued, contradicting the claim that the cache is reused
only when the elapsed time is *strictly* less than the lifetime. -/
theorem http_fetcher_reuses_cache_at_exact_lifetime :
    HttpFetcher.do_fetch (fun _ _ => Except.error (Error.HttpError "net"))
        30
        (HttpFetcher.mk [FetcherBackend.Cloudflare] 0 30
          (some (FetcherRecordSet.mk [FetcherRecord.mk (RecordContent.A 1) []]))) =
      (HttpFetcher.mk [FetcherBackend.Cloudflare] 0 30
          (some (FetcherRecordSet.mk [FetcherRecord.mk (RecordContent.A 1) []])),
        Except.ok (FetcherRecordSet.mk [FetcherRecord.mk (RecordContent.A 1) []])) ∧
    ¬((30 : Nat) - 0 < 30) :=
  ⟨rfl, by decide⟩

/-- C3 amended: `HttpFetcher::do_fetch` returns the cached result
unchanged — issuing no backend requests, formalized as the outcome
being the cache for *every* oracle — iff a cached result is present
(the code checks `cache.is_none()`, not emptiness) and the elapsed
time is at most (not strictly less than) the lifetime; otherwise a
live multi-backend fetch replaces the cache, updates the timestamp and
returns the new value.  `GlobalFetcher`'s `fetch` is the variant that
reuses its cache iff the elapsed time is strictly less than the
lifetime and the cache is non-empty. -/
theorem fetch_cache_reuse_conditions (s : HttpFetcher) (now : Nat) :
    ((∃ c, s.cache = some c ∧
        ∀ http : FetchOracle,
          HttpFetcher.do_fetch http now s = (s, Except.ok c)) ↔
      (s.cache.isSome = true ∧
        now - s.last_fetch_time ≤ s.cache_alive_time)) ∧
    ((s.cache.isNone = true ∨ s.cache_alive_time < now - s.last_fetch_time) →
      ∀ (http : FetchOracle) (records : FetcherRecordSet),
        HttpFetcher.do_fetch_from_backends http s = Except.ok records →
        HttpFetcher.do_fetch http now s =
          ({ s with cache := some records, last_fetch_time := now },
            Except.ok records)) ∧
    (∀ g : GlobalFetcher,
      (∀ live, GlobalFetcher.fetch g now live =
          (g, Except.ok g.cache_result)) ↔
        (now - g.last_fetch_time < g.lifetime ∧
          g.cache_result.records ≠ [])) := by
  refine ⟨⟨?_, ?_⟩, ?_, ?_⟩
  · rintro ⟨c, hc, hall⟩
    refine ⟨by rw [hc]; rfl, ?_⟩
    by_contra hgt
    push_neg at hgt
    have hcond : (s.cache.isNone ||
        decide (now - s.last_fetch_time > s.cache_alive_time)) = true := by
      simp [hgt]
    have hnow : s.last_fetch_time ≠ now := by
      intro heq
      rw [heq] at hgt
      omega
    have h2 := hall (fun _ _ => Except.error (Error.HttpError "x"))
    unfold HttpFetcher.do_fetch at h2
    rw [if_pos hcond] at h2
    rcases hres : HttpFetcher.do_fetch_from_backends
        (fun _ _ => Except.error (Error.HttpError "x")) s with e | records
    · rw [hres] at h2
      have := congrArg Prod.snd h2
      simp at this
    · rw [hres] at h2
      have := congrArg (fun p => p.1.last_fetch_time) h2
      simp at this
      exact hnow this.symm
  · rintro ⟨hsome, hle⟩
    rcases hc : s.cache with _ | c
    · rw [hc] at hsome; cases hsome
    · refine ⟨c, rfl, fun http => ?_⟩
      unfold HttpFetcher.do_fetch
      rw [if_neg (by simp [hc]; omega)]
      rw [hc]
      rfl
  · intro hcond http records hfetch
    unfold HttpFetcher.do_fetch
    rw [if_pos ?_, hfetch]
    rcases hcond with hnone | hgt
    · simp [hnone]
    · simp [hgt]
  · intro g
    constructor
    · intro hall
      have h2 := hall (Except.error (Error.GlobalFetcherError "x"))
      unfold GlobalFetcher.fetch at h2
      by_cases hfresh : GlobalFetcher.is_fresh g now = true
      · unfold GlobalFetcher.is_fresh at hfresh
        simp [RecordEntrySet.is_empty, List.isEmpty_iff] at hfresh
        exact hfresh
      · rw [if_neg hfresh] at h2
        have := congrArg Prod.snd h2
        simp at this
    · rintro ⟨hlt, hne⟩ live
      unfold GlobalFetcher.fetch
      rw [if_pos ?_]
      unfold GlobalFetcher.is_fresh
      simp [RecordEntrySet.is_empty, List.isEmpty_iff, hlt, hne]

/-- C1 counterexample: a zone with 2 pre-existing remote records
sharing the synced record's qualified name (and its type).
`record_op_force_overwrite` does not submit a batch with 2 deletes and
1 post — `record_list` fails on multiple matches, so the sync errors
out and no batch is submitted at all. -/
theorem force_overwrite_two_matches_counterexample :
    Cloudflare2.record_op_force_overwrite
        [Cloudflare2.CfRecord.mk (some "id1") "home.example.com" "A"
            (some "1.2.3.4") "" Cloudflare2.CfRecordOp.Create false (some 1),
          Cloudflare2.CfRecord.mk (some "id2") "home.example.com" "A"
            (some "5.6.7.8") "" Cloudflare2.CfRecordOp.Create false (some 1)]
        (Cloudflare2.CfRecord.mk none "home.example.com" "A"
          (some "203.0.113.5") "" Cloudflare2.CfRecordOp.Overwrite true
          (some 1)) =
      Except.error (Error.ParseError
        "multiple records found: home.example.com") ∧
    ∀ batch, Cloudflare2.record_op_force_overwrite
        [Cloudflare2.CfRecord.mk (some "id1") "home.example.com" "A"
            (some "1.2.3.4") "" Cloudflare2.CfRecordOp.Create false (some 1),
          Cloudflare2.CfRecord.mk (some "id2") "home.example.com" "A"
            (some "5.6.7.8") "" Cloudflare2.CfRecordOp.Create false (some 1)]
        (Cloudflare2.CfRecord.mk none "home.example.com" "A"
          (some "203.0.113.5") "" Cloudflare2.CfRecordOp.Overwrite true
          (some 1)) ≠
      Except.ok batch := by
  refine ⟨rfl, fun batch h => ?_⟩
  rw [show Cloudflare2.record_op_force_overwrite
      [Cloudflare2.CfRecord.mk (some "id1") "home.example.com" "A"
          (some "1.2.3.4") "" Cloudflare2.CfRecordOp.Create false (some 1),
        Cloudflare2.CfRecord.mk (some "id2") "home.example.com" "A"
          (some "5.6.7.8") "" Cloudflare2.CfRecordOp.Create false (some 1)]
      (Cloudflare2.CfRecord.mk none "home.example.com" "A"
        (some "203.0.113.5") "" Cloudflare2.CfRecordOp.Overwrite true
        (some 1)) =
    Except.error (Error.ParseError "multiple records found: home.example.com")
    from rfl] at h
  cases h

/-- C1 amended: the batch listing filters the remote records by the
synced record's name *and* type; when no remote record matches, the
submitted batch carries no deletes and exactly one post (the new
body); when exactly one matches, exactly that record's delete and one
post; when two or more match, the sync fails with an error before any
batch is submitted — irrespective of the configured `op`, which the
function never consults. -/
theorem force_overwrite_batch_composition
    (remote : List Cloudflare2.CfRecord) (record : Cloudflare2.CfRecord) :
    (remote.filter
        (fun r => r.name == record.name && r.rtype == record.rtype) = [] →
      Cloudflare2.record_op_force_overwrite remote record =
        Except.ok (Cloudflare2.BatchRecord.mk none none (some [record]))) ∧
    (∀ r, remote.filter
        (fun r2 => r2.name == record.name && r2.rtype == record.rtype) = [r] →
      Cloudflare2.record_op_force_overwrite remote record =
        Except.ok (Cloudflare2.BatchRecord.mk
          (some [Cloudflare2.BatchRecordDelete.mk r.id.get!]) none
          (some [record]))) ∧
    (2 ≤ (remote.filter
        (fun r2 => r2.name == record.name && r2.rtype == record.rtype)).length →
      ∃ e, Cloudflare2.record_op_force_overwrite remote record =
        Except.error e) := by
  refine ⟨fun h => ?_, fun r h => ?_, fun h => ?_⟩
  · unfold Cloudflare2.record_op_force_overwrite Cloudflare2.record_list
    rw [h]
    rfl
  · unfold Cloudflare2.record_op_force_overwrite Cloudflare2.record_list
    rw [h]
    rfl
  · rcases hfil : remote.filter
        (fun r2 => r2.name == record.name && r2.rtype == record.rtype) with
      _ | ⟨r1, _ | ⟨r2, rest⟩⟩
    · rw [hfil] at h; simp at h
    · rw [hfil] at h; simp at h
    · refine ⟨Error.ParseError ("multiple records found: " ++ record.name), ?_⟩
      unfold Cloudflare2.record_op_force_overwrite Cloudflare2.record_list
      rw [hfil]

/-- Closed instance of `force_overwrite_batch_composition`: with one
matching remote record the batch deletes exactly it and posts exactly
the new body; with none it only posts. -/
theorem force_overwrite_batch_composition_witness :
    Cloudflare2.record_op_force_overwrite
        [Cloudflare2.CfRecord.mk (some "id1") "home.example.com" "A"
            (some "1.2.3.4") "" Cloudflare2.CfRecordOp.Create false (some 1)]
        (Cloudflare2.CfRecord.mk none "home.example.com" "A"
          (some "203.0.113.5") "" Cloudflare2.CfRecordOp.Overwrite true
          (some 1)) =
      Except.ok (Cloudflare2.BatchRecord.mk
        (some [Cloudflare2.BatchRecordDelete.mk "id1"]) none
        (some [Cloudflare2.CfRecord.mk none "home.example.com" "A"
          (some "203.0.113.5") "" Cloudflare2.CfRecordOp.Overwrite true
          (some 1)])) ∧
    Cloudflare2.record_op_force_overwrite []
        (Cloudflare2.CfRecord.mk none "home.example.com" "A"
          (some "203.0.113.5") "" Cloudflare2.CfRecordOp.Overwrite true
          (some 1)) =
      Except.ok (Cloudflare2.BatchRecord.mk none none
        (some [Cloudflare2.CfRecord.mk none "home.example.com" "A"
          (some "203.0.113.5") "" Cloudflare2.CfRecordOp.Overwrite true
          (some 1)])) :=
  ⟨(force_overwrite_batch_composition _ _).2.1
      (Cloudflare2.CfRecord.mk (some "id1") "home.example.com" "A"
        (some "1.2.3.4") "" Cloudflare2.CfRecordOp.Create false (some 1))
      (by decide),
    (force_overwrite_batch_composition _ _).1 rfl⟩

/-- Folding `add_zone_record` over an attachment's zone list appends
one projected record per occurrence of the looked-up zone, after
whatever the map already held. -/
theorem add_zone_record_foldl (record : CfgRecord) (params : CfgParamList)
    (zones : List String) :
    ∀ (br : BackendRecords) (z : String),
      ((zones.foldl
          (fun br2 zone => add_zone_record br2 zone record params) br).zones
        z).records =
      (br.zones z).records ++ zones.filterMap (fun zone =>
        if zone = z then some (record.into_provider_record params)
        else none) := by
  induction zones with
  | nil => intro br z; simp
  | cons zn rest ih =>
    intro br z
    rw [List.foldl_cons, ih]
    by_cases hz : zn = z
    · subst hz
      simp [add_zone_record, mapUpdate]
    · simp [add_zone_record, mapUpdate, hz, Ne.symm hz]

/-- One `process_provider` step appends the attachment's contribution
at the looked-up provider and zone, and touches nothing else. -/
theorem process_provider_zones (record : CfgRecord)
    (provider : CfgRecordProvider) (m : String → ProviderBackend)
    (p z : String) :
    (((process_provider m record provider) p).record.zones z).records =
      (((m p).record.zones z).records ++
        (if provider.name = p then
          provider.zones.filterMap (fun zone =>
            if zone = z then
              some (record.into_provider_record provider.params)
            else none)
        else [])) := by
  unfold process_provider
  by_cases hp : provider.name = p
  · subst hp
    simp [mapUpdate, add_zone_record_foldl]
  · simp [mapUpdate, hp, Ne.symm hp]

/-- Folding `process_provider` over a list of attachments appends each
attachment's contribution in order. -/
theorem process_providers_foldl (record : CfgRecord)
    (provs : List CfgRecordProvider) :
    ∀ (m : String → ProviderBackend) (p z : String),
      (((provs.foldl
          (fun m2 provider => process_provider m2 record provider) m) p).record.zones
        z).records =
      ((m p).record.zones z).records ++
        (provs.map (fun provider =>
          if provider.name = p then
            provider.zones.filterMap (fun zone =>
              if zone = z then
                some (record.into_provider_record provider.params)
              else none)
          else [])).flatten := by
  induction provs with
  | nil => intro m p z; simp
  | cons provider rest ih =>
    intro m p z
    rw [List.foldl_cons, ih, process_provider_zones]
    simp [List.append_assoc]

/-- C7: the topology built by the runner maps every provider name and
zone name to the list holding exactly one pending record per
`(record, attachment, zone)` triple of the input that names them, in
input order — records referencing the same provider and zone append to
the same list, never overwriting earlier entries. -/
theorem topology_accumulates_pending_records
    (cfg_records : List CfgRecordItem) (p z : String) :
    (((to_provider_backends cfg_records) p).record.zones z).records =
      topology_spec cfg_records p z := by
  unfold to_provider_backends topology_spec
  have general : ∀ (m : String → ProviderBackend),
      (((cfg_records.foldl process_record_item m) p).record.zones z).records =
      ((m p).record.zones z).records ++
        (cfg_records.map (fun item =>
          (item.providers.map (fun provider =>
            if provider.name = p then
              provider.zones.filterMap (fun zone =>
                if zone = z then
                  some (item.record.into_provider_record provider.params)
                else none)
            else [])).flatten)).flatten := by
    induction cfg_records with
    | nil => intro m; simp
    | cons item rest ih =>
      intro m
      rw [List.foldl_cons, ih]
      unfold process_record_item
      rw [process_providers_foldl]
      simp [List.append_assoc]
  rw [general]
  rfl

/-- Closed instance of `fetch_cache_reuse_conditions`: a cold-cache
fetcher at time 99 performs the live fetch, stores the result and
stamps the time. -/
theorem fetch_cache_reuse_conditions_witness :
    HttpFetcher.do_fetch
        (fun _ _ => Except.ok (FetcherRecord.mk (RecordContent.A 9) [])) 99
        (HttpFetcher.mk [FetcherBackend.Cloudflare] 0 30 none) =
      (HttpFetcher.mk [FetcherBackend.Cloudflare] 99 30
          (some (FetcherRecordSet.mk
            [FetcherRecord.mk (RecordContent.A 9) [],
              FetcherRecord.mk (RecordContent.A 9) []])),
        Except.ok (FetcherRecordSet.mk
          [FetcherRecord.mk (RecordContent.A 9) [],
            FetcherRecord.mk (RecordContent.A 9) []])) :=
  (fetch_cache_reuse_conditions
      (HttpFetcher.mk [FetcherBackend.Cloudflare] 0 30 none) 99).2.1
    (Or.inl rfl)
    (fun _ _ => Except.ok (FetcherRecord.mk (RecordContent.A 9) []))
    (FetcherRecordSet.mk
      [FetcherRecord.mk (RecordContent.A 9) [],
        FetcherRecord.mk (RecordContent.A 9) []])
    rfl
